import Mathlib

/-!
Formal model of the IoT data platform's generation-and-pipeline core
(`data_generator.py`, `db_utils.py`, and the generation handler of `app.py`),
together with proofs of the behavioural properties stated in its design
document.  Randomness is modelled by passing the stream of draws a run
consumes explicitly; the store is modelled as an in-memory table and a
write-outcome oracle.
-/

namespace IotPlatform

/-! ### Point sampler (`data_generator.py`, `random_location`)

A region of the catalog is its name plus its polygon, the latter represented
by its point-containment test (`poly.contains(pt)` in the source, with the
point written `(lon, lat)` as in `Point(lon, lat)`). -/

structure Region where
  name : String
  contains : ℚ × ℚ → Bool

/-- The dictionary `random_location` returns on acceptance. -/
structure Location where
  lat : ℚ
  lon : ℚ
  altitude : ℚ
  region : String
deriving DecidableEq

/-- The randomness one iteration of the outer `while True` loop consumes:
the weighted region draw (as an index into the catalog, the weights only
shape the distribution of this index), the ten candidate points drawn in
the region's bounding box (`for _ in range(10)`), and the altitude draw
used on acceptance. -/
structure Round where
  regionIdx : Nat
  cand : Fin 10 → ℚ × ℚ
  altitude : ℚ

/-- The first of the ten bounding-box candidates accepted by
`poly.contains` (the body of `for _ in range(10)`). -/
def firstAccepted (reg : Region) (cand : Fin 10 → ℚ × ℚ) : Option (ℚ × ℚ) :=
  ((List.finRange 10).map cand).find? reg.contains

/-- `random_location`, with the unbounded `while True` loop made explicit:
`rounds` is the stream of random draws the loop consumes, one `Round` per
outer iteration, and `none` means the loop is still running when the given
stream is exhausted (the source has no failure exit from this loop).
An out-of-range region index cannot be produced by `random.choices`; such a
round is passed over so that the function stays total. -/
def random_locationFuel (cat : List Region) : List Round → Option Location
  | [] => none
  | r :: rest =>
    match cat[r.regionIdx]? with
    | none => random_locationFuel cat rest
    | some reg =>
      match firstAccepted reg r.cand with
      | some pt =>
        some { lat := pt.2, lon := pt.1, altitude := r.altitude, region := reg.name }
      | none => random_locationFuel cat rest

/-- One outer iteration succeeds: the round's region draw is a valid index
and one of its ten candidates passes the containment test. -/
def roundAccepts (cat : List Region) (r : Round) : Bool :=
  match cat[r.regionIdx]? with
  | some reg => (firstAccepted reg r.cand).isSome
  | none => false

/-- A catalog consisting of one degenerate region whose polygon contains no
point at all (for example a zero-area sliver, for which `poly.contains` is
false everywhere). -/
def degenerateCatalog : List Region :=
  [{ name := "degenerate", contains := fun _ => false }]

/-! ### Batch ingestion (`db_utils.py`, `bulk_insert_records`)

Only `device_id` and `timestamp` take part in the control flow; `location`,
`data` and `notes` are serialized into the inserted row but never affect
validation, batching or the reported counts.  Python's falsy test
`not device_id or not timestamp` (catching both `None` from `record.get`
and the empty string) is modelled by comparing with the empty string.
The store is a write-outcome oracle `failAt`: the k-th `executemany` /
`commit` call raises an exception iff `failAt k` is true. -/

structure IngestRecord where
  device_id : String
  timestamp : String
deriving DecidableEq

/-- `if not device_id or not timestamp: skip_count += 1; continue`. -/
def validRecord (r : IngestRecord) : Bool :=
  r.device_id != "" && r.timestamp != ""

/-- The loop state of `bulk_insert_records`: the pending batch, the two
counters, and how many store write attempts have been issued so far. -/
structure InsState where
  batch : List IngestRecord
  success : Nat
  skip : Nat
  attempt : Nat
deriving DecidableEq

/-- `BATCH_SIZE = 500`. -/
def BATCH_SIZE : Nat := 500

/-- The body of `for i, record in enumerate(records)`.  The batch write for
a full batch happens inside the per-record `try`, so a store failure there
is caught by `except Exception: skip_count += 1; continue`, leaving the
batch (including the current record) in place. -/
def bulkStep (failAt : Nat → Bool) (s : InsState) (r : IngestRecord) : InsState :=
  if validRecord r then
    let b := s.batch ++ [r]
    if BATCH_SIZE ≤ b.length then
      if failAt s.attempt then
        { batch := b, success := s.success, skip := s.skip + 1, attempt := s.attempt + 1 }
      else
        { batch := [], success := s.success + b.length, skip := s.skip, attempt := s.attempt + 1 }
    else
      { s with batch := b }
  else
    { s with skip := s.skip + 1 }

/-- `batch = []`, `success_count = 0`, `skip_count = 0` before the loop. -/
def initState : InsState :=
  { batch := [], success := 0, skip := 0, attempt := 0 }

def bulkLoop (failAt : Nat → Bool) (recs : List IngestRecord) : InsState :=
  recs.foldl (bulkStep failAt) initState

/-- `bulk_insert_records`, reduced to the `(success_count, skip_count)` it
reports.  The trailing `if batch: cur.executemany(...)` flush sits outside
the per-record `try`, so a store failure there propagates to the outer
`except`, which returns `0, 0, 0`. -/
def bulk_insert_records (failAt : Nat → Bool) (recs : List IngestRecord) : Nat × Nat :=
  let s := bulkLoop failAt recs
  if s.batch.isEmpty then (s.success, s.skip)
  else if failAt s.attempt then (0, 0)
  else (s.success + s.batch.length, s.skip)

/-- Number of records passing the `device_id`/`timestamp` validation. -/
def countValid (recs : List IngestRecord) : Nat :=
  recs.countP (fun r => validRecord r)

/-- Number of records failing the validation (counted as skips). -/
def countInvalid (recs : List IngestRecord) : Nat :=
  recs.countP (fun r => !validRecord r)

/-- A store that never fails. -/
def noFailure : Nat → Bool := fun _ => false

/-- A store whose very first write attempt fails and all later ones
succeed (a transient store failure). -/
def failFirst : Nat → Bool := fun k => k == 0

/-! ### Device ids (`data_generator.py`, `random_device_id`)

`"sensor_" + ''.join(random.choices(string.digits, k=5))`: the five draws
from `string.digits` are modelled as five values in `Fin 10`. -/

def digitChar (d : Fin 10) : Char := Char.ofNat (48 + d.val)

def random_device_id (ds : Fin 5 → Fin 10) : String :=
  "sensor_" ++ String.mk ((List.finRange 5).map (fun i => digitChar (ds i)))

/-! ### Timestamps (`data_generator.py`, `random_timestamp`)

`random_timestamp(start_year=2024, end_year=2025)` computes
`delta = datetime(2025, 12, 31) - datetime(2024, 1, 1)`, draws
`random_days = randint(0, delta.days)` and `random_seconds = randint(0, 86400)`
(both bounds inclusive), and formats `start + timedelta(days, seconds)` with
`strftime('%Y-%m-%d %H:%M:%S')`.  Dates are modelled by the proleptic
Gregorian ordinal (as in `datetime.toordinal`); instants by whole seconds
since 2024-01-01 00:00:00. -/

def isLeapYear (y : Nat) : Bool :=
  (y % 4 == 0 && y % 100 != 0) || y % 400 == 0

def daysInYear (y : Nat) : Nat := if isLeapYear y then 366 else 365

def monthLengths (y : Nat) : List Nat :=
  [31, if isLeapYear y then 29 else 28, 31, 30, 31, 30, 31, 31, 30, 31, 30, 31]

/-- One-based ordinal of a date within its year. -/
def dayOfYear (y m d : Nat) : Nat := ((monthLengths y).take (m - 1)).sum + d

/-- Days in all years strictly before year `y` (proleptic Gregorian). -/
def daysBeforeYear (y : Nat) : Nat :=
  365 * (y - 1) + (y - 1) / 4 - (y - 1) / 100 + (y - 1) / 400

/-- `datetime(y, m, d).toordinal()`. -/
def toOrdinal (y m d : Nat) : Nat := daysBeforeYear y + dayOfYear y m d

/-- `(datetime(2025, 12, 31) - datetime(2024, 1, 1)).days`. -/
def deltaDays : Nat := toOrdinal 2025 12 31 - toOrdinal 2024 1 1

/-- The instant `datetime(2024, 1, 1) + timedelta(days=d, seconds=s)`,
as whole seconds since 2024-01-01 00:00:00. -/
def random_timestamp_offset (d s : Nat) : Nat := d * 86400 + s

/-- The two-year window of the design: all second-precision instants from
2024-01-01 00:00:00 through the end of 2025 (i.e. strictly before
2026-01-01 00:00:00), as offsets from 2024-01-01 00:00:00. -/
def inTwoYearWindow (t : Nat) : Bool :=
  t < (toOrdinal 2026 1 1 - toOrdinal 2024 1 1) * 86400

/-! `strftime('%Y-%m-%d %H:%M:%S')`: civil date-time of an offset. -/

def pad2 (n : Nat) : String := if n < 10 then "0" ++ toString n else toString n

/-- Walk forward one year at a time from year `y` until fewer than a full
year of days remains.  Each step consumes at least 365 days, so `d + 1`
steps of fuel always suffice; the fuel only makes the recursion structural
(kernel-evaluable), it never runs out before the answer is reached. -/
def splitYearAux : Nat → Nat → Nat → Nat × Nat
  | 0, y, d => (y, d)
  | fuel + 1, y, d =>
    if d < daysInYear y then (y, d)
    else splitYearAux fuel (y + 1) (d - daysInYear y)

def splitYear (y d : Nat) : Nat × Nat := splitYearAux (d + 1) y d

/-- Walk along the month lengths of the year, 1-based month counter. -/
def splitMonth : List Nat → Nat → Nat → Nat × Nat
  | [], m, d => (m, d)
  | len :: rest, m, d => if d < len then (m, d) else splitMonth rest (m + 1) (d - len)

/-- Civil date of `d` days after 2024-01-01 (0-based day within month is
converted to the usual 1-based day). -/
def civilOfDays (d : Nat) : Nat × Nat × Nat :=
  let yd := splitYear 2024 d
  let md := splitMonth (monthLengths yd.1) 1 yd.2
  (yd.1, md.1, md.2 + 1)

/-- The formatted `'%Y-%m-%d %H:%M:%S'` string of an offset in seconds
since 2024-01-01 00:00:00 (years in the reachable range have four digits,
so `%Y` needs no padding). -/
def timestampString (t : Nat) : String :=
  let ymd := civilOfDays (t / 86400)
  let rem := t % 86400
  toString ymd.1 ++ "-" ++ pad2 ymd.2.1 ++ "-" ++ pad2 ymd.2.2 ++ " " ++
    pad2 (rem / 3600) ++ ":" ++ pad2 (rem % 3600 / 60) ++ ":" ++ pad2 (rem % 60)

/-- `random_timestamp` for the draws `(random_days, random_seconds)`. -/
def random_timestamp (d s : Nat) : String :=
  timestampString (random_timestamp_offset d s)

/-! ### Sensor payloads (`data_generator.py`, `random_optional` and
`generate_device_data`; `app.py`, the generate-button handler)

A JSON object field can be genuinely absent, present with value `null`
(Python `None` serialized by `json.dumps`), or present with a value; the
three states are distinguished because the design claims absence is never
represented by a present `null`. -/

inductive OptField (α : Type) where
  | absent : OptField α
  | null : OptField α
  | val : α → OptField α
deriving DecidableEq

/-- `random_optional(value_func, miss_rate=0.05)`: keeps the drawn value
iff `random.random() > miss_rate`; `u` is the `random.random()` draw and
`v` the value `value_func` would produce. -/
def random_optional (u : ℚ) (v : ℚ) (missRate : ℚ := 1 / 20) : Option ℚ :=
  if u > missRate then some v else none

/-- The randomness `generate_device_data` consumes, one field per draw,
each already shaped to its uniform range (values are modelled after
Python's `round(...)`, hence rationals). -/
structure SensorDraws where
  temperature : ℚ
  humidity : ℚ
  batteryGate : ℚ
  batteryVal : ℚ
  pressureGate : ℚ
  pressureVal : ℚ
  statusIdx : Fin 3
  noiseDb : ℚ
  lowFreq : ℚ
  midFreq : ℚ
  highFreq : ℚ
  vibX : ℚ
  vibY : ℚ
  vibZ : ℚ
  gpsGate : ℚ
  gpsSatellites : Nat
  gpsHdop : ℚ
  accGate : ℚ
  accX : ℚ
  accY : ℚ
  accZ : ℚ
  imgCoin : Bool
  imgIdx : Nat

/-- The `data` dictionary built by `generate_device_data` (the nested
`metrics` sub-dictionaries are flattened into leaf fields; that nesting
carries no behaviour). -/
structure SensorData where
  temperature : ℚ
  humidity : ℚ
  battery : OptField ℚ
  pressure : OptField ℚ
  status : String
  noiseDb : ℚ
  lowFreq : ℚ
  midFreq : ℚ
  highFreq : ℚ
  vibX : ℚ
  vibY : ℚ
  vibZ : ℚ
  gps : OptField (Nat × ℚ)
  acceleration : OptField (ℚ × ℚ × ℚ)
  imagePath : OptField String
deriving DecidableEq

def statusChoices : List String := ["OK", "WARN", "ERROR"]

/-- `generate_device_data`.  Note that `data["battery"]`, `data["pressure"]`
and `data["image_path"]` are assigned unconditionally — a missing value is
the key holding `None` — while `gps` and `acceleration` keys are only added
when their 80% / 50% gates pass. -/
def generate_device_data (d : SensorDraws) : SensorData :=
  { temperature := d.temperature
    humidity := d.humidity
    battery :=
      match random_optional d.batteryGate d.batteryVal with
      | some v => OptField.val v
      | none => OptField.null
    pressure :=
      match random_optional d.pressureGate d.pressureVal with
      | some v => OptField.val v
      | none => OptField.null
    status := statusChoices.get ⟨d.statusIdx.val, d.statusIdx.isLt⟩
    noiseDb := d.noiseDb
    lowFreq := d.lowFreq
    midFreq := d.midFreq
    highFreq := d.highFreq
    vibX := d.vibX
    vibY := d.vibY
    vibZ := d.vibZ
    gps := if d.gpsGate > 1 / 5 then OptField.val (d.gpsSatellites, d.gpsHdop)
      else OptField.absent
    acceleration := if d.accGate > 1 / 2 then OptField.val (d.accX, d.accY, d.accZ)
      else OptField.absent
    imagePath := if d.imgCoin then
        OptField.val ("/images/" ++ toString d.imgIdx ++ ".jpg")
      else OptField.null }

/-- The randomness the generate-button handler of `app.py` consumes per
record, on top of the generator's: the two extra miss-rate gates and the
values used when GPS/accelerometer are forced. -/
structure AppDraws where
  batteryU : ℚ
  pressureU : ℚ
  gpsSatellites : Nat
  gpsHdop : ℚ
  accX : ℚ
  accY : ℚ
  accZ : ℚ

/-- The per-record post-processing of `app.py` (tab 1): with probability
`battery_miss_rate` it overwrites `rec["data"]["battery"]` with `None`
(likewise pressure), and when forced it overwrites the `gps` /
`acceleration` keys with fresh values. -/
def app_adjust_data (bRate pRate : ℚ) (forceGps forceAcc : Bool) (u : AppDraws)
    (d : SensorData) : SensorData :=
  let d1 := if u.batteryU < bRate then { d with battery := OptField.null } else d
  let d2 := if u.pressureU < pRate then { d1 with pressure := OptField.null } else d1
  let d3 := if forceGps then
      { d2 with gps := OptField.val (u.gpsSatellites, u.gpsHdop) } else d2
  if forceAcc then { d3 with acceleration := OptField.val (u.accX, u.accY, u.accZ) }
  else d3

/-! ### Battery presence probability (`data_generator.py` line 120 with
`app.py` line 115)

The battery value survives iff the generator's gate draw satisfies
`random.random() > 0.05` and the app's gate draw does NOT satisfy
`random.random() < battery_miss_rate` (see `pipeline_battery_val`).  The
two draws are independent uniforms on `[0, 1)`, modelled as the product
Lebesgue measure on the unit square. -/

def unitSquare : Set (ℝ × ℝ) := Set.Ico 0 1 ×ˢ Set.Ico 0 1

/-- The set of pairs of gate draws for which the record ends with a battery
value: first coordinate the generator's `random.random()`, second the app
handler's. -/
def batteryPresentEvent (r : ℝ) : Set (ℝ × ℝ) :=
  {u ∈ unitSquare | u.1 > 1 / 20 ∧ ¬ (u.2 < r)}

/-- Probability that a synthesized record carries a battery value, for the
configured `battery_miss_rate = r`. -/
noncomputable def batteryPresentProb (r : ℝ) : ENNReal :=
  MeasureTheory.volume (batteryPresentEvent r)

/-! ### Geometry backfill (`db_utils.py`, `update_geometry`)

A persisted row: the `location` JSON document (of which only the `lon` and
`lat` keys are read here, each possibly missing) and the derived `geom`
column (nullable).  The `UPDATE ... SET geom = ST_SetSRID(ST_MakePoint(
(location->>'lon')::FLOAT, (location->>'lat')::FLOAT), 4326) WHERE
location IS NOT NULL AND (location->>'lon') IS NOT NULL AND
(location->>'lat') IS NOT NULL` touches exactly the rows with both
coordinates, and `cur.rowcount` counts them. -/

structure LocDoc where
  lon : Option ℚ
  lat : Option ℚ
deriving DecidableEq

structure DeviceRow where
  device_id : String
  location : Option LocDoc
  geom : Option (ℚ × ℚ)
deriving DecidableEq

/-- The `WHERE` clause of the update. -/
def hasCoords (row : DeviceRow) : Bool :=
  match row.location with
  | some l => l.lon.isSome && l.lat.isSome
  | none => false

/-- The `SET geom = ...` applied to one row (rows outside the `WHERE`
clause are left untouched). -/
def setGeom (row : DeviceRow) : DeviceRow :=
  match row.location with
  | some l =>
    match l.lon, l.lat with
    | some lo, some la => { row with geom := some (lo, la) }
    | _, _ => row
  | none => row

/-- `update_geometry`: the updated table and the reported
`cur.rowcount`. -/
def update_geometry (table : List DeviceRow) : List DeviceRow × Nat :=
  (table.map setGeom, table.countP hasCoords)

/-! ### Proximity query (`db_utils.py`, `query_nearby_devices_with_attributes`)

The geodesic distance computed by PostGIS on `geography` values (used both
by `ST_DWithin`, in meters, and by `ST_Distance`) is abstracted as a
distance function `dist` on `(lon, lat)` pairs — the same `dist` in the
filter and in the reported column, exactly as in the SQL.  Rows whose
`geom` is NULL fail `ST_DWithin` and are excluded.  `ORDER BY distance_km`
is merge sort on the reported distance. -/

structure StoredRow where
  device_id : String
  geom : Option (ℚ × ℚ)
  battery : Option ℚ
  status : String
deriving DecidableEq

structure NearbyRow where
  device_id : String
  longitude : ℚ
  latitude : ℚ
  battery : Option ℚ
  status : String
  distance_km : ℚ
deriving DecidableEq

def query_nearby_devices_with_attributes (dist : ℚ × ℚ → ℚ × ℚ → ℚ)
    (table : List StoredRow) (lon lat : ℚ) (radius_km : ℚ) : List NearbyRow :=
  let center := (lon, lat)
  let hits := table.filterMap (fun row =>
    match row.geom with
    | none => none
    | some g =>
      if dist g center ≤ radius_km * 1000 then
        some { device_id := row.device_id, longitude := g.1, latitude := g.2,
               battery := row.battery, status := row.status,
               distance_km := dist g center / 1000 }
      else none)
  hits.mergeSort (fun a b => a.distance_km ≤ b.distance_km)

/-- The row produced for a stored row that passes the `ST_DWithin`
filter. -/
def nearbyHit (dist : ℚ × ℚ → ℚ × ℚ → ℚ) (center : ℚ × ℚ) (row : StoredRow)
    (g : ℚ × ℚ) : NearbyRow :=
  { device_id := row.device_id, longitude := g.1, latitude := g.2,
    battery := row.battery, status := row.status,
    distance_km := dist g center / 1000 }

/-! ### Full records (`data_generator.py`, `generate_single_record`) -/

structure DeviceRecord where
  device_id : String
  timestamp : String
  location : Location
  data : SensorData
  notes : OptField String
deriving DecidableEq

/-- `generate_single_record`, over the draws its parts consume.  The
location part is the sampler, so the result is `none` while the sampler's
unbounded loop is still running.  The generator never writes a `notes`
key: the field starts out absent. -/
def generate_single_record (ds : Fin 5 → Fin 10) (dDraw sDraw : Nat)
    (cat : List Region) (rounds : List Round) (sd : SensorDraws) :
    Option DeviceRecord :=
  (random_locationFuel cat rounds).map (fun loc =>
    { device_id := random_device_id ds
      timestamp := random_timestamp dDraw sDraw
      location := loc
      data := generate_device_data sd
      notes := OptField.absent })

/-- The `notes` assignment of the generate handler of `app.py`:
`if with_notes: rec["notes"] = f"Generated at {datetime.now().isoformat()}"`
— the key is written, with an actual string (`marker`), only when the
`with_notes` checkbox is set; otherwise it is never touched. -/
def app_set_notes (withNotes : Bool) (marker : String) (r : DeviceRecord) :
    DeviceRecord :=
  if withNotes then { r with notes := OptField.val marker } else r

/-- The two fields of a record that `bulk_insert_records` validates. -/
def toIngest (r : DeviceRecord) : IngestRecord :=
  { device_id := r.device_id, timestamp := r.timestamp }

/-- A record produced by the generator (for some stream of draws). -/
def IsGenerated (r : DeviceRecord) : Prop :=
  ∃ (ds : Fin 5 → Fin 10) (dDraw sDraw : Nat) (cat : List Region)
    (rounds : List Round) (sd : SensorDraws),
    generate_single_record ds dDraw sDraw cat rounds sd = some r

/-! ### Concrete instances used by witnesses and counterexamples -/

def witCatalog : List Region :=
  [{ name := "北京市", contains := fun p => decide (0 ≤ p.1) }]

def witRound : Round :=
  { regionIdx := 0, cand := fun _ => (116, 40), altitude := 100 }

def witLoc : Location :=
  { lat := 40, lon := 116, altitude := 100, region := "北京市" }

def okRecord : IngestRecord :=
  { device_id := "sensor_00042", timestamp := "2024-06-01 12:00:00" }

/-- Draws for which the generator's battery gate misses
(`random.random() = 0` is not `> 0.05`) and the image-path coin picks
`None`. -/
def sd0 : SensorDraws :=
  { temperature := 20, humidity := 50, batteryGate := 0, batteryVal := 80,
    pressureGate := 1, pressureVal := 1000, statusIdx := 0, noiseDb := 60,
    lowFreq := 50, midFreq := 500, highFreq := 2000, vibX := 0, vibY := 0,
    vibZ := 0, gpsGate := 1, gpsSatellites := 10, gpsHdop := 1, accGate := 1,
    accX := 0, accY := 0, accZ := 0, imgCoin := false, imgIdx := 1 }

def witDist : ℚ × ℚ → ℚ × ℚ → ℚ :=
  fun g c => (g.1 - c.1) * (g.1 - c.1) + (g.2 - c.2) * (g.2 - c.2)

def witNearRow : StoredRow :=
  { device_id := "near", geom := some (1, 1), battery := some 50, status := "OK" }

def witTable : List StoredRow :=
  [witNearRow,
   { device_id := "nogeom", geom := none, battery := none, status := "WARN" }]

def witGeoLoc : LocDoc := { lon := some 116, lat := some 40 }

def witGeoRow : DeviceRow :=
  { device_id := "d1", location := some witGeoLoc, geom := none }

def genCatalog : List Region := [{ name := "上海市", contains := fun _ => true }]

def genRound : Round := { regionIdx := 0, cand := fun _ => (121, 31), altitude := 4 }

def ds0 : Fin 5 → Fin 10 := fun _ => 0

def ad0 : AppDraws :=
  { batteryU := 1, pressureU := 1, gpsSatellites := 10, gpsHdop := 1,
    accX := 0, accY := 0, accZ := 0 }

def genRecord : DeviceRecord :=
  { device_id := random_device_id ds0, timestamp := random_timestamp 0 0,
    location := { lat := 31, lon := 121, altitude := 4, region := "上海市" },
    data := generate_device_data sd0, notes := OptField.absent }

lemma find?_eq_some_of_mem_firstAccepted {reg : Region} {cand : Fin 10 → ℚ × ℚ}
    {pt : ℚ × ℚ} (h : firstAccepted reg cand = some pt) :
    reg.contains pt = true :=
  List.find?_some h

/-- If the sampler returns a location, the returned point passes the
containment test of a catalog region carrying the returned region name. -/
lemma random_locationFuel_containment (cat : List Region) :
    ∀ (rounds : List Round) (loc : Location),
      random_locationFuel cat rounds = some loc →
      ∃ reg ∈ cat, reg.name = loc.region ∧ reg.contains (loc.lon, loc.lat) = true := by
  intro rounds
  induction rounds with
  | nil => intro loc h; simp [random_locationFuel] at h
  | cons r rest ih =>
    intro loc h
    rw [random_locationFuel] at h
    cases hget : cat[r.regionIdx]? with
    | none => rw [hget] at h; exact ih loc h
    | some reg =>
      rw [hget] at h
      dsimp only at h
      cases hacc : firstAccepted reg r.cand with
      | none => rw [hacc] at h; exact ih loc h
      | some pt =>
        rw [hacc] at h
        dsimp only at h
        have hmem : reg ∈ cat := List.getElem?_mem hget
        have hcont := find?_eq_some_of_mem_firstAccepted hacc
        refine ⟨reg, hmem, ?_, ?_⟩
        · cases h; rfl
        · cases h; simpa using hcont

/-- The sampler returns a location exactly when some consumed round accepts
a candidate; otherwise it simply keeps looping. -/
lemma random_locationFuel_isSome (cat : List Region) :
    ∀ rounds : List Round,
      (random_locationFuel cat rounds).isSome = rounds.any (roundAccepts cat) := by
  intro rounds
  induction rounds with
  | nil => simp [random_locationFuel]
  | cons r rest ih =>
    rw [random_locationFuel, List.any_cons]
    cases hget : cat[r.regionIdx]? with
    | none => simp [roundAccepts, hget, ih]
    | some reg =>
      cases hacc : firstAccepted reg r.cand with
      | none => simp [roundAccepts, hget, hacc, ih]
      | some pt => simp [roundAccepts, hget, hacc]

lemma degenerate_never_returns (rounds : List Round) :
    random_locationFuel degenerateCatalog rounds = none := by
  have h := random_locationFuel_isSome degenerateCatalog rounds
  have hacc : ∀ r : Round, roundAccepts degenerateCatalog r = false := by
    intro r
    rw [roundAccepts]
    cases hget : degenerateCatalog[r.regionIdx]? with
    | none => rfl
    | some reg =>
      have hreg : reg.contains = fun _ => false := by
        rcases hn : r.regionIdx with _ | n
        · rw [hn] at hget
          simp [degenerateCatalog] at hget
          rw [← hget]
        · rw [hn] at hget
          simp [degenerateCatalog] at hget
      simp [firstAccepted, hreg, List.find?_eq_none]
  have : rounds.any (roundAccepts degenerateCatalog) = false := by
    simp only [List.any_eq_false]
    intro r _
    simp [hacc r]
  rw [this] at h
  exact Option.not_isSome_iff_eq_none.mp (by simp [h])

lemma countValid_cons (r : IngestRecord) (recs : List IngestRecord) :
    countValid (r :: recs) = (if validRecord r then 1 else 0) + countValid recs := by
  simp only [countValid, List.countP_cons]
  cases h : validRecord r <;> simp [h, Nat.add_comm]

lemma countInvalid_cons (r : IngestRecord) (recs : List IngestRecord) :
    countInvalid (r :: recs) = (if validRecord r then 0 else 1) + countInvalid recs := by
  simp only [countInvalid, List.countP_cons]
  cases h : validRecord r <;> simp [h, Nat.add_comm]

/-- Loop invariant for a never-failing store: the records accepted so far
are exactly the valid ones (committed plus pending), the skips are exactly
the invalid ones, and the pending batch stays strictly below `BATCH_SIZE`. -/
lemma bulkLoop_noFailure_inv :
    ∀ (recs : List IngestRecord) (s : InsState), s.batch.length < BATCH_SIZE →
      (recs.foldl (bulkStep noFailure) s).success +
          (recs.foldl (bulkStep noFailure) s).batch.length =
        s.success + s.batch.length + countValid recs ∧
      (recs.foldl (bulkStep noFailure) s).skip = s.skip + countInvalid recs ∧
      (recs.foldl (bulkStep noFailure) s).batch.length < BATCH_SIZE := by
  intro recs
  induction recs with
  | nil => intro s hs; simp [countValid, countInvalid, hs]
  | cons r rest ih =>
    intro s hs
    rw [List.foldl_cons]
    rw [countValid_cons, countInvalid_cons]
    by_cases hv : validRecord r
    · by_cases hfull : BATCH_SIZE ≤ s.batch.length + 1
      · have hstep : bulkStep noFailure s r =
            { batch := [], success := s.success + (s.batch.length + 1), skip := s.skip,
              attempt := s.attempt + 1 } := by
          simp [bulkStep, hv, noFailure, List.length_append, hfull]
        rw [hstep]
        obtain ⟨ha, hb, hc⟩ := ih
          { batch := [], success := s.success + (s.batch.length + 1), skip := s.skip,
            attempt := s.attempt + 1 } (by simp [BATCH_SIZE])
        refine ⟨?_, ?_, hc⟩
        · simp only at ha
          rw [ha]
          simp [hv]
          omega
        · simp only at hb
          rw [hb]
          simp [hv]
      · have hstep : bulkStep noFailure s r = { s with batch := s.batch ++ [r] } := by
          simp only [bulkStep, hv, if_true, List.length_append, List.length_cons,
            List.length_nil]
          rw [if_neg (by omega)]
        rw [hstep]
        obtain ⟨ha, hb, hc⟩ := ih { s with batch := s.batch ++ [r] } (by simp; omega)
        refine ⟨?_, ?_, hc⟩
        · rw [ha]
          simp [hv]
          omega
        · rw [hb]
          simp [hv]
    · have hstep : bulkStep noFailure s r = { s with skip := s.skip + 1 } := by
        simp [bulkStep, hv]
      rw [hstep]
      obtain ⟨ha, hb, hc⟩ := ih { s with skip := s.skip + 1 } (by simpa using hs)
      refine ⟨by rw [ha]; simp [hv], ?_, hc⟩
      rw [hb]
      simp [hv]
      omega

/-- Without store failures the reported counts are exactly the number of
valid records and the number of invalid records. -/
lemma bulk_insert_noFailure (recs : List IngestRecord) :
    bulk_insert_records noFailure recs = (countValid recs, countInvalid recs) := by
  obtain ⟨ha, hb, _⟩ := bulkLoop_noFailure_inv recs initState
    (by simp [initState, BATCH_SIZE])
  rw [bulk_insert_records]
  show (if (bulkLoop noFailure recs).batch.isEmpty then _ else _) = _
  have ha' : (bulkLoop noFailure recs).success + (bulkLoop noFailure recs).batch.length =
      countValid recs := by simpa [bulkLoop, initState] using ha
  have hb' : (bulkLoop noFailure recs).skip = countInvalid recs := by
    simpa [bulkLoop, initState] using hb
  by_cases hempty : (bulkLoop noFailure recs).batch.isEmpty
  · rw [if_pos hempty]
    have hlen : (bulkLoop noFailure recs).batch.length = 0 := by
      rw [List.isEmpty_iff] at hempty
      simp [hempty]
    rw [Prod.mk.injEq]
    exact ⟨by omega, hb'⟩
  · rw [if_neg hempty]
    simp only [noFailure, Bool.false_eq_true, if_false]
    rw [Prod.mk.injEq]
    exact ⟨ha', hb'⟩

/-- After the first write attempt has been issued, `failFirst` never fails
again: the loop then behaves exactly like the failure-free loop, with the
pending batch bounded by `BATCH_SIZE` (the batch retained by the caught
failure can hold a full `BATCH_SIZE` records). -/
lemma bulkLoop_failFirst_phase1 :
    ∀ (recs : List IngestRecord) (s : InsState),
      1 ≤ s.attempt → s.batch.length ≤ BATCH_SIZE →
      (recs.foldl (bulkStep failFirst) s).success +
          (recs.foldl (bulkStep failFirst) s).batch.length =
        s.success + s.batch.length + countValid recs ∧
      (recs.foldl (bulkStep failFirst) s).skip = s.skip + countInvalid recs ∧
      1 ≤ (recs.foldl (bulkStep failFirst) s).attempt ∧
      (recs.foldl (bulkStep failFirst) s).batch.length ≤ BATCH_SIZE := by
  intro recs
  induction recs with
  | nil => intro s h1 h2; simp [countValid, countInvalid, h1, h2]
  | cons r rest ih =>
    intro s h1 h2
    rw [List.foldl_cons, countValid_cons, countInvalid_cons]
    by_cases hv : validRecord r
    · by_cases hfull : BATCH_SIZE ≤ s.batch.length + 1
      · have hfail : failFirst s.attempt = false := by
          simp [failFirst]
          omega
        have hstep : bulkStep failFirst s r =
            { batch := [], success := s.success + (s.batch.length + 1), skip := s.skip,
              attempt := s.attempt + 1 } := by
          simp [bulkStep, hv, hfail, List.length_append, hfull]
        rw [hstep]
        obtain ⟨ha, hb, hc, hd⟩ := ih
          { batch := [], success := s.success + (s.batch.length + 1), skip := s.skip,
            attempt := s.attempt + 1 } (by show 1 ≤ s.attempt + 1; omega)
          (by simp [BATCH_SIZE])
        refine ⟨?_, ?_, hc, hd⟩
        · rw [ha]; simp [hv]; omega
        · rw [hb]; simp [hv]
      · have hstep : bulkStep failFirst s r = { s with batch := s.batch ++ [r] } := by
          simp only [bulkStep, hv, if_true, List.length_append, List.length_cons,
            List.length_nil]
          rw [if_neg (by omega)]
        rw [hstep]
        obtain ⟨ha, hb, hc, hd⟩ := ih { s with batch := s.batch ++ [r] }
          (by simpa using h1) (by simp; omega)
        refine ⟨?_, ?_, hc, hd⟩
        · rw [ha]; simp [hv]; omega
        · rw [hb]; simp [hv]
    · have hstep : bulkStep failFirst s r = { s with skip := s.skip + 1 } := by
        simp [bulkStep, hv]
      rw [hstep]
      obtain ⟨ha, hb, hc, hd⟩ := ih { s with skip := s.skip + 1 }
        (by simpa using h1) (by simpa using h2)
      refine ⟨by rw [ha]; simp [hv], ?_, hc, hd⟩
      rw [hb]; simp [hv]; omega

/-- Before any write attempt, the loop under `failFirst` accumulates valid
records; the moment the batch reaches `BATCH_SIZE` the write fails, is
caught by the per-record handler (one extra skip, batch retained), and the
loop enters the never-failing phase. -/
lemma bulkLoop_failFirst_phase0 :
    ∀ (recs : List IngestRecord) (s : InsState),
      s.attempt = 0 → s.success = 0 → s.batch.length < BATCH_SIZE →
      ((recs.foldl (bulkStep failFirst) s).attempt = 0 ∧
        (recs.foldl (bulkStep failFirst) s).success = 0 ∧
        (recs.foldl (bulkStep failFirst) s).batch.length =
          s.batch.length + countValid recs ∧
        (recs.foldl (bulkStep failFirst) s).skip = s.skip + countInvalid recs ∧
        (recs.foldl (bulkStep failFirst) s).batch.length < BATCH_SIZE) ∨
      (1 ≤ (recs.foldl (bulkStep failFirst) s).attempt ∧
        (recs.foldl (bulkStep failFirst) s).success +
            (recs.foldl (bulkStep failFirst) s).batch.length =
          s.batch.length + countValid recs ∧
        (recs.foldl (bulkStep failFirst) s).skip = s.skip + countInvalid recs + 1 ∧
        (recs.foldl (bulkStep failFirst) s).batch.length ≤ BATCH_SIZE) := by
  intro recs
  induction recs with
  | nil =>
    intro s h1 h2 h3
    left
    simp [countValid, countInvalid, h1, h2, h3]
  | cons r rest ih =>
    intro s h1 h2 h3
    rw [List.foldl_cons, countValid_cons, countInvalid_cons]
    by_cases hv : validRecord r
    · by_cases hfull : BATCH_SIZE ≤ s.batch.length + 1
      · have hfail : failFirst s.attempt = true := by simp [failFirst, h1]
        have hstep : bulkStep failFirst s r =
            { batch := s.batch ++ [r], success := s.success, skip := s.skip + 1,
              attempt := s.attempt + 1 } := by
          simp [bulkStep, hv, hfail, List.length_append, hfull]
        rw [hstep]
        obtain ⟨ha, hb, hc, hd⟩ := bulkLoop_failFirst_phase1 rest
          { batch := s.batch ++ [r], success := s.success, skip := s.skip + 1,
            attempt := s.attempt + 1 } (by show 1 ≤ s.attempt + 1; omega)
          (by simp; omega)
        right
        refine ⟨hc, ?_, ?_, hd⟩
        · rw [ha]; simp [hv, h2]; omega
        · rw [hb]; simp [hv]; omega
      · have hstep : bulkStep failFirst s r = { s with batch := s.batch ++ [r] } := by
          simp only [bulkStep, hv, if_true, List.length_append, List.length_cons,
            List.length_nil]
          rw [if_neg (by omega)]
        rw [hstep]
        rcases ih { s with batch := s.batch ++ [r] } (by simpa using h1)
          (by simpa using h2) (by simp; omega) with hleft | hright
        · left
          obtain ⟨p1, p2, p3, p4, p5⟩ := hleft
          refine ⟨p1, p2, ?_, ?_, p5⟩
          · rw [p3]; simp [hv]; omega
          · rw [p4]; simp [hv]
        · right
          obtain ⟨p1, p2, p3, p4⟩ := hright
          refine ⟨p1, ?_, ?_, p4⟩
          · rw [p2]; simp [hv]; omega
          · rw [p3]; simp [hv]
    · have hstep : bulkStep failFirst s r = { s with skip := s.skip + 1 } := by
        simp [bulkStep, hv]
      rw [hstep]
      rcases ih { s with skip := s.skip + 1 } (by simpa using h1)
        (by simpa using h2) (by simpa using h3) with hleft | hright
      · left
        obtain ⟨p1, p2, p3, p4, p5⟩ := hleft
        refine ⟨p1, p2, by rw [p3]; simp [hv], ?_, p5⟩
        rw [p4]; simp [hv]; omega
      · right
        obtain ⟨p1, p2, p3, p4⟩ := hright
        refine ⟨p1, by rw [p2]; simp [hv], ?_, p4⟩
        rw [p3]; simp [hv]; omega

/-- With a transient store failure on the first write attempt and at least
one full batch of valid records, the ingestion does NOT abort: the caught
failure costs one extra skip (the record that triggered the failing write
is recounted as skipped even though the retained batch is written later),
and every valid record ends up counted as a success. -/
lemma bulk_insert_failFirst (recs : List IngestRecord)
    (h : BATCH_SIZE ≤ countValid recs) :
    bulk_insert_records failFirst recs = (countValid recs, countInvalid recs + 1) := by
  rcases bulkLoop_failFirst_phase0 recs initState rfl rfl
      (by simp [initState, BATCH_SIZE]) with hleft | hright
  · obtain ⟨_, _, p3, _, p5⟩ := hleft
    rw [p3] at p5
    simp only [initState, List.length_nil, Nat.zero_add] at p5
    omega
  · obtain ⟨p1, p2, p3, _⟩ := hright
    have p1' : 1 ≤ (bulkLoop failFirst recs).attempt := by
      simpa [bulkLoop] using p1
    have p2' : (bulkLoop failFirst recs).success +
        (bulkLoop failFirst recs).batch.length = countValid recs := by
      simpa [bulkLoop, initState] using p2
    have p3' : (bulkLoop failFirst recs).skip = countInvalid recs + 1 := by
      simpa [bulkLoop, initState] using p3
    rw [bulk_insert_records]
    show (if (bulkLoop failFirst recs).batch.isEmpty then _ else _) = _
    have hfail : failFirst (bulkLoop failFirst recs).attempt = false := by
      simp [failFirst]
      omega
    by_cases hempty : (bulkLoop failFirst recs).batch.isEmpty
    · rw [if_pos hempty]
      have hlen : (bulkLoop failFirst recs).batch.length = 0 := by
        rw [List.isEmpty_iff] at hempty
        simp [hempty]
      rw [Prod.mk.injEq]
      exact ⟨by omega, p3'⟩
    · rw [if_neg hempty, if_neg (by simp [hfail])]
      rw [Prod.mk.injEq]
      exact ⟨p2', p3'⟩

lemma deltaDays_eq : deltaDays = 730 := by decide

lemma daysInYear_pos (y : Nat) : 0 < daysInYear y := by
  rw [daysInYear]
  split <;> omega

lemma timestampString_ne_empty (t : Nat) : timestampString t ≠ "" := by
  intro hcontra
  have hlen : (timestampString t).length = 0 := by rw [hcontra]; rfl
  rw [timestampString] at hlen
  simp only [String.length_append] at hlen
  have h1 : ("-" : String).length = 1 := rfl
  omega

lemma generate_battery (sd : SensorDraws) :
    (generate_device_data sd).battery =
      if sd.batteryGate > 1 / 20 then OptField.val sd.batteryVal
      else OptField.null := by
  simp only [generate_device_data, random_optional]
  by_cases h : sd.batteryGate > 1 / 20
  · rw [if_pos h, if_pos h]
  · rw [if_neg h, if_neg h]

lemma app_adjust_battery (bRate pRate : ℚ) (fg fa : Bool) (u : AppDraws)
    (d : SensorData) :
    (app_adjust_data bRate pRate fg fa u d).battery =
      if u.batteryU < bRate then OptField.null else d.battery := by
  rw [app_adjust_data]
  split_ifs <;> rfl

/-- Through the whole pipeline (generator then app handler), the battery
field carries a value iff the generator's fixed 5% gate kept it AND the
app's configured miss gate did not overwrite it. -/
lemma pipeline_battery_val (sd : SensorDraws) (ad : AppDraws)
    (bRate pRate : ℚ) (fg fa : Bool) :
    (app_adjust_data bRate pRate fg fa ad (generate_device_data sd)).battery =
        OptField.val sd.batteryVal ↔
      (sd.batteryGate > 1 / 20 ∧ ¬ (ad.batteryU < bRate)) := by
  rw [app_adjust_battery, generate_battery]
  by_cases h1 : sd.batteryGate > 1 / 20 <;>
    by_cases h2 : ad.batteryU < bRate <;> simp [h1, h2]

lemma generate_pressure (sd : SensorDraws) :
    (generate_device_data sd).pressure =
      if sd.pressureGate > 1 / 20 then OptField.val sd.pressureVal
      else OptField.null := by
  simp only [generate_device_data, random_optional]
  by_cases h : sd.pressureGate > 1 / 20
  · rw [if_pos h, if_pos h]
  · rw [if_neg h, if_neg h]

lemma generate_gps (sd : SensorDraws) :
    (generate_device_data sd).gps =
      if sd.gpsGate > 1 / 5 then OptField.val (sd.gpsSatellites, sd.gpsHdop)
      else OptField.absent := rfl

lemma generate_acceleration (sd : SensorDraws) :
    (generate_device_data sd).acceleration =
      if sd.accGate > 1 / 2 then OptField.val (sd.accX, sd.accY, sd.accZ)
      else OptField.absent := rfl

lemma generate_imagePath (sd : SensorDraws) :
    (generate_device_data sd).imagePath =
      if sd.imgCoin then OptField.val ("/images/" ++ toString sd.imgIdx ++ ".jpg")
      else OptField.null := rfl

lemma app_adjust_pressure (bRate pRate : ℚ) (fg fa : Bool) (u : AppDraws)
    (d : SensorData) :
    (app_adjust_data bRate pRate fg fa u d).pressure =
      if u.pressureU < pRate then OptField.null else d.pressure := by
  rw [app_adjust_data]
  split_ifs <;> rfl

lemma app_adjust_gps (bRate pRate : ℚ) (fg fa : Bool) (u : AppDraws)
    (d : SensorData) :
    (app_adjust_data bRate pRate fg fa u d).gps =
      if fg then OptField.val (u.gpsSatellites, u.gpsHdop) else d.gps := by
  rw [app_adjust_data]
  split_ifs <;> rfl

lemma app_adjust_acceleration (bRate pRate : ℚ) (fg fa : Bool) (u : AppDraws)
    (d : SensorData) :
    (app_adjust_data bRate pRate fg fa u d).acceleration =
      if fa then OptField.val (u.accX, u.accY, u.accZ) else d.acceleration := by
  rw [app_adjust_data]
  split_ifs <;> rfl

lemma app_adjust_imagePath (bRate pRate : ℚ) (fg fa : Bool) (u : AppDraws)
    (d : SensorData) :
    (app_adjust_data bRate pRate fg fa u d).imagePath = d.imagePath := by
  rw [app_adjust_data]
  split_ifs <;> rfl

lemma batteryPresentEvent_eq (r : ℝ) (h0 : 0 ≤ r) :
    batteryPresentEvent r = Set.Ioo (1 / 20 : ℝ) 1 ×ˢ Set.Ico r 1 := by
  ext u
  simp only [batteryPresentEvent, unitSquare, Set.mem_sep_iff, Set.mem_prod,
    Set.mem_Ico, Set.mem_Ioo, not_lt]
  constructor
  · rintro ⟨⟨⟨_, hu11⟩, _, hu21⟩, hgt, hge⟩
    exact ⟨⟨hgt, hu11⟩, hge, hu21⟩
  · rintro ⟨⟨hgt, hlt⟩, hge, hlt2⟩
    refine ⟨⟨⟨?_, hlt⟩, ?_, hlt2⟩, hgt, hge⟩
    · linarith
    · exact le_trans h0 hge

lemma batteryPresentProb_eq (r : ℝ) (h0 : 0 ≤ r) :
    batteryPresentProb r = ENNReal.ofReal (19 / 20 * (1 - r)) := by
  rw [batteryPresentProb, batteryPresentEvent_eq r h0,
    MeasureTheory.Measure.volume_eq_prod, MeasureTheory.Measure.prod_prod,
    Real.volume_Ioo, Real.volume_Ico, ← ENNReal.ofReal_mul (by norm_num)]
  norm_num

lemma setGeom_location (row : DeviceRow) : (setGeom row).location = row.location := by
  obtain ⟨id, loc, geom⟩ := row
  cases loc with
  | none => rfl
  | some l =>
    obtain ⟨lon, lat⟩ := l
    cases lon <;> cases lat <;> rfl

lemma setGeom_idem (row : DeviceRow) : setGeom (setGeom row) = setGeom row := by
  obtain ⟨id, loc, geom⟩ := row
  cases loc with
  | none => rfl
  | some l =>
    obtain ⟨lon, lat⟩ := l
    cases lon <;> cases lat <;> rfl

lemma hasCoords_setGeom (row : DeviceRow) : hasCoords (setGeom row) = hasCoords row := by
  obtain ⟨id, loc, geom⟩ := row
  cases loc with
  | none => rfl
  | some l =>
    obtain ⟨lon, lat⟩ := l
    cases lon <;> cases lat <;> rfl

lemma mem_query_nearby {dist : ℚ × ℚ → ℚ × ℚ → ℚ} {table : List StoredRow}
    {lon lat radius_km : ℚ} {out : NearbyRow} :
    out ∈ query_nearby_devices_with_attributes dist table lon lat radius_km ↔
      ∃ row ∈ table, ∃ g, row.geom = some g ∧
        dist g (lon, lat) ≤ radius_km * 1000 ∧ out = nearbyHit dist (lon, lat) row g := by
  rw [query_nearby_devices_with_attributes]
  simp only [List.mem_mergeSort, List.mem_filterMap]
  constructor
  · rintro ⟨row, hrow, hf⟩
    cases hg : row.geom with
    | none => rw [hg] at hf; simp at hf
    | some g =>
      rw [hg] at hf
      dsimp only at hf
      by_cases hd : dist g (lon, lat) ≤ radius_km * 1000
      · rw [if_pos hd] at hf
        exact ⟨row, hrow, g, hg, hd, (Option.some.inj hf).symm⟩
      · rw [if_neg hd] at hf
        simp at hf
  · rintro ⟨row, hrow, g, hg, hd, rfl⟩
    refine ⟨row, hrow, ?_⟩
    rw [hg]
    dsimp only
    rw [if_pos hd]
    rfl

lemma query_nearby_within {dist : ℚ × ℚ → ℚ × ℚ → ℚ} {table : List StoredRow}
    {lon lat radius_km : ℚ} {out : NearbyRow}
    (h : out ∈ query_nearby_devices_with_attributes dist table lon lat radius_km) :
    out.distance_km ≤ radius_km := by
  obtain ⟨row, _, g, _, hd, rfl⟩ := mem_query_nearby.mp h
  show dist g (lon, lat) / 1000 ≤ radius_km
  rw [div_le_iff₀ (by norm_num : (0 : ℚ) < 1000)]
  exact hd

lemma query_nearby_complete {dist : ℚ × ℚ → ℚ × ℚ → ℚ} {table : List StoredRow}
    {lon lat radius_km : ℚ} {row : StoredRow} {g : ℚ × ℚ}
    (hrow : row ∈ table) (hg : row.geom = some g)
    (hd : dist g (lon, lat) ≤ radius_km * 1000) :
    ∃ out ∈ query_nearby_devices_with_attributes dist table lon lat radius_km,
      out.device_id = row.device_id ∧ out.distance_km = dist g (lon, lat) / 1000 :=
  ⟨nearbyHit dist (lon, lat) row g,
    mem_query_nearby.mpr ⟨row, hrow, g, hg, hd, rfl⟩, rfl, rfl⟩

lemma query_nearby_sorted (dist : ℚ × ℚ → ℚ × ℚ → ℚ) (table : List StoredRow)
    (lon lat radius_km : ℚ) :
    (query_nearby_devices_with_attributes dist table lon lat radius_km).Pairwise
      (fun a b => a.distance_km ≤ b.distance_km) := by
  rw [query_nearby_devices_with_attributes]
  exact (List.sorted_mergeSort
      (fun a b c hab hbc => by
        simp only [decide_eq_true_eq] at *
        exact le_trans hab hbc)
      (fun a b => by
        simp only [Bool.or_eq_true, decide_eq_true_eq]
        exact le_total a.distance_km b.distance_km)
      _).imp
    (fun hab => by simpa using hab)

lemma digitChar_isDigit (d : Fin 10) : (digitChar d).isDigit = true := by
  fin_cases d <;> decide

lemma random_device_id_shape (ds : Fin 5 → Fin 10) :
    ∃ suffix : String, random_device_id ds = "sensor_" ++ suffix ∧
      suffix.length = 5 ∧ ∀ c ∈ suffix.data, c.isDigit = true := by
  refine ⟨String.mk ((List.finRange 5).map (fun i => digitChar (ds i))), rfl, ?_, ?_⟩
  · simp
  · intro c hc
    have hc' : c ∈ (List.finRange 5).map (fun i => digitChar (ds i)) := hc
    obtain ⟨i, _, rfl⟩ := List.mem_map.mp hc'
    exact digitChar_isDigit (ds i)

lemma random_device_id_length (ds : Fin 5 → Fin 10) :
    (random_device_id ds).length = 12 := by
  rw [random_device_id, String.length_append]
  simp
  rfl

lemma random_device_id_ne_empty (ds : Fin 5 → Fin 10) :
    random_device_id ds ≠ "" := by
  intro h
  have := random_device_id_length ds
  rw [h] at this
  simp at this

lemma random_timestamp_ne_empty (d s : Nat) : random_timestamp d s ≠ "" :=
  timestampString_ne_empty (random_timestamp_offset d s)

lemma generated_valid {r : DeviceRecord} (h : IsGenerated r) :
    validRecord (toIngest r) = true := by
  obtain ⟨ds, dD, sD, cat, rounds, sd, hgen⟩ := h
  rw [generate_single_record] at hgen
  cases hloc : random_locationFuel cat rounds with
  | none => rw [hloc] at hgen; simp at hgen
  | some loc =>
    rw [hloc] at hgen
    simp only [Option.map_some'] at hgen
    have hr := Option.some.inj hgen
    rw [validRecord, toIngest, ← hr]
    simp only [bne_iff_ne, ne_eq, Bool.and_eq_true, decide_eq_true_eq]
    exact ⟨random_device_id_ne_empty ds, random_timestamp_ne_empty dD sD⟩

/-- Ingesting generator-produced records with a healthy store never skips:
every record is valid, so the validation branch is unreachable. -/
lemma bulk_insert_generated (recs : List DeviceRecord)
    (h : ∀ r ∈ recs, IsGenerated r) :
    bulk_insert_records noFailure (recs.map toIngest) = (recs.length, 0) := by
  rw [bulk_insert_noFailure]
  have hall : ∀ q ∈ recs.map toIngest, validRecord q = true := by
    intro q hq
    obtain ⟨r, hr, rfl⟩ := List.mem_map.mp hq
    exact generated_valid (h r hr)
  have hcv : countValid (recs.map toIngest) = recs.length := by
    rw [countValid]
    rw [List.countP_eq_length.mpr (by intro a ha; exact hall a ha)]
    simp
  have hci : countInvalid (recs.map toIngest) = 0 := by
    rw [countInvalid]
    rw [List.countP_eq_zero.mpr ?_]
    intro a ha
    simp [hall a ha]
  rw [hcv, hci]

lemma setGeom_coords {row : DeviceRow} {l : LocDoc} {lo la : ℚ}
    (h : row.location = some l) (hlo : l.lon = some lo) (hla : l.lat = some la) :
    setGeom row = { row with geom := some (lo, la) } := by
  obtain ⟨id, loc, geom⟩ := row
  obtain rfl : loc = some l := h
  obtain ⟨lon0, lat0⟩ := l
  obtain rfl : lon0 = some lo := hlo
  obtain rfl : lat0 = some la := hla
  rfl

/-! ### The claims -/

/-- C1: for every Location the Point Sampler returns, the point
`(lon, lat)` it carries passes the polygon containment test of a catalog
region carrying the name in its `region` field. -/
theorem C1_point_sampler_containment (cat : List Region) (rounds : List Round)
    (loc : Location) (h : random_locationFuel cat rounds = some loc) :
    ∃ reg ∈ cat, reg.name = loc.region ∧ reg.contains (loc.lon, loc.lat) = true :=
  random_locationFuel_containment cat rounds loc h

/-- C1 witness: a concrete catalog and draw stream on which the sampler
returns a location, and the containment property holds for it. -/
theorem C1_point_sampler_containment_witness :
    ∃ reg ∈ witCatalog, reg.name = witLoc.region ∧
      reg.contains (witLoc.lon, witLoc.lat) = true :=
  C1_point_sampler_containment witCatalog [witRound] witLoc (by decide)

/-- C2 counterexample: 501 valid records against a store whose first batch
write fails while all later writes succeed.  The failing batch write is
caught by the per-record handler, so the ingestion does NOT abort with
zero counts: it reports `(501, 1)`. -/
theorem C2_counterexample :
    bulk_insert_records failFirst (List.replicate 501 okRecord) = (501, 1) ∧
    ((501, 1) : Nat × Nat) ≠ (0, 0) := by
  have h1 : countValid (List.replicate 501 okRecord) = 501 := by
    rw [countValid, List.countP_eq_length.mpr ?_, List.length_replicate]
    intro a ha
    rw [List.eq_of_mem_replicate ha]
    decide
  have h2 : countInvalid (List.replicate 501 okRecord) = 0 := by
    rw [countInvalid, List.countP_eq_zero.mpr ?_]
    intro a ha
    rw [List.eq_of_mem_replicate ha]
    decide
  have h := bulk_insert_failFirst (List.replicate 501 okRecord)
    (by rw [h1]; decide)
  rw [h1, h2] at h
  exact ⟨h, by decide⟩

/-- C2 (amended): a store failure during a mid-run full-batch write is
caught by the per-record `except` handler — it adds one skip, retains the
batch, and ingestion continues, eventually reporting every valid record as
a success and `countInvalid + 1` skips (whenever at least one full batch of
valid records exists, so that the first write attempt is a mid-run one).
Only a failure of the trailing flush, which sits outside the per-record
handler, aborts the whole ingestion with `(0, 0)` — e.g. three valid
records whose only write is the trailing flush. -/
theorem C2_amended_failure_handling :
    (∀ recs : List IngestRecord, BATCH_SIZE ≤ countValid recs →
      bulk_insert_records failFirst recs = (countValid recs, countInvalid recs + 1)) ∧
    bulk_insert_records failFirst (List.replicate 3 okRecord) = (0, 0) :=
  ⟨bulk_insert_failFirst, by decide⟩

/-- C2 witness: the amended count law instantiated at 500 valid records
(one full batch; its write fails and is then written by the trailing
flush). -/
lemma countValid_replicate_ok (n : Nat) :
    countValid (List.replicate n okRecord) = n := by
  rw [countValid, List.countP_eq_length.mpr ?_, List.length_replicate]
  intro a ha
  rw [List.eq_of_mem_replicate ha]
  decide

/-- C2 witness: the amended count law instantiated at 500 valid records
(one full batch; its write fails and its records are then written by the
trailing flush). -/
theorem C2_amended_failure_handling_witness :
    BATCH_SIZE ≤ countValid (List.replicate 500 okRecord) ∧
    bulk_insert_records failFirst (List.replicate 500 okRecord) =
      (countValid (List.replicate 500 okRecord),
        countInvalid (List.replicate 500 okRecord) + 1) :=
  ⟨by rw [countValid_replicate_ok]; decide,
    C2_amended_failure_handling.1 (List.replicate 500 okRecord)
      (by rw [countValid_replicate_ok]; decide)⟩

/-- C3 counterexample: on a catalog holding one degenerate region whose
polygon contains no point, no amount of random draws makes the sampler
produce any outcome: it neither returns a Location nor signals any
exhaustion failure — the `while True` loop simply never terminates. -/
theorem C3_counterexample :
    ¬ ∃ rounds : List Round,
        (random_locationFuel degenerateCatalog rounds).isSome = true := by
  rintro ⟨rounds, h⟩
  rw [degenerate_never_returns rounds] at h
  simp at h

/-- C3 (amended): the sampler draws at most ten bounding-box candidates per
region draw (structural in `Round`), and returns a Location exactly when
some outer-loop round accepts a candidate; there is no overall retry budget
and no exhaustion signal, so on a catalog whose region accepts nothing it
runs forever. -/
theorem C3_amended_sampler_behavior :
    (∀ (cat : List Region) (rounds : List Round),
      (random_locationFuel cat rounds).isSome = rounds.any (roundAccepts cat)) ∧
    ∀ rounds : List Round, random_locationFuel degenerateCatalog rounds = none :=
  ⟨random_locationFuel_isSome, degenerate_never_returns⟩

/-- C4: without store failures, `successCount` is exactly the number of
records with non-empty `device_id` and `timestamp`, and `skipCount` exactly
the number of the remaining records, for every record sequence. -/
theorem C4_ingestion_counts (recs : List IngestRecord) :
    bulk_insert_records noFailure recs = (countValid recs, countInvalid recs) :=
  bulk_insert_noFailure recs

/-- C5 counterexample: a concrete draw for which the generator represents
the missing battery (and the missing image path) as a PRESENT key holding
null — absence represented by a null placeholder, contradicting the
claim. -/
theorem C5_counterexample :
    (generate_device_data sd0).battery = OptField.null ∧
    (generate_device_data sd0).imagePath = OptField.null := by
  constructor
  · rw [generate_battery, if_neg (by norm_num [sd0])]
  · rw [generate_imagePath, if_neg (by simp [sd0])]

lemma generate_single_record_notes {ds : Fin 5 → Fin 10} {dDraw sDraw : Nat}
    {cat : List Region} {rounds : List Round} {sd : SensorDraws}
    {rec : DeviceRecord}
    (h : generate_single_record ds dDraw sDraw cat rounds sd = some rec) :
    rec.notes = OptField.absent := by
  rw [generate_single_record] at h
  cases hloc : random_locationFuel cat rounds with
  | none => rw [hloc] at h; simp at h
  | some loc =>
    rw [hloc] at h
    simp only [Option.map_some'] at h
    rw [← Option.some.inj h]

/-- C5 (amended): `gps`, `acceleration` and `notes` are genuine
present-or-absent fields (absent, or holding an actual value — `notes` is
written, with a real string, only under `with_notes`, and is never a null
placeholder), but `battery`, `pressure` and `image_path` are always-present
keys whose missing value is the null placeholder — for every draw and
configuration of the generator-plus-app pipeline. -/
theorem C5_amended_optional_fields (sd : SensorDraws) (ad : AppDraws)
    (bRate pRate : ℚ) (fg fa : Bool) :
    (app_adjust_data bRate pRate fg fa ad (generate_device_data sd)).battery ≠
        OptField.absent ∧
    (app_adjust_data bRate pRate fg fa ad (generate_device_data sd)).pressure ≠
        OptField.absent ∧
    (app_adjust_data bRate pRate fg fa ad (generate_device_data sd)).imagePath ≠
        OptField.absent ∧
    ((app_adjust_data bRate pRate fg fa ad (generate_device_data sd)).gps =
        OptField.absent ∨
      ∃ v, (app_adjust_data bRate pRate fg fa ad (generate_device_data sd)).gps =
        OptField.val v) ∧
    ((app_adjust_data bRate pRate fg fa ad (generate_device_data sd)).acceleration =
        OptField.absent ∨
      ∃ v, (app_adjust_data bRate pRate fg fa ad
        (generate_device_data sd)).acceleration = OptField.val v) ∧
    (∀ (wn : Bool) (marker : String) (ds : Fin 5 → Fin 10) (dDraw sDraw : Nat)
      (cat : List Region) (rounds : List Round) (rec : DeviceRecord),
      generate_single_record ds dDraw sDraw cat rounds sd = some rec →
      ((app_set_notes wn marker rec).notes = OptField.absent ∨
        ∃ v, (app_set_notes wn marker rec).notes = OptField.val v)) := by
  refine ⟨?_, ?_, ?_, ?_, ?_, ?_⟩
  · rw [app_adjust_battery, generate_battery]
    split_ifs <;> simp
  · rw [app_adjust_pressure, generate_pressure]
    split_ifs <;> simp
  · rw [app_adjust_imagePath, generate_imagePath]
    split_ifs <;> simp
  · rw [app_adjust_gps, generate_gps]
    split_ifs <;> simp
  · rw [app_adjust_acceleration, generate_acceleration]
    split_ifs <;> simp
  · intro wn marker ds dDraw sDraw cat rounds rec hgen
    rw [app_set_notes]
    cases wn with
    | true => right; exact ⟨marker, rfl⟩
    | false =>
      left
      simpa using generate_single_record_notes hgen

/-- C5 witness: the notes part of the amended claim exercised on a
concrete generated record, in both `with_notes` modes. -/
theorem C5_amended_optional_fields_witness :
    ((app_set_notes false "m" genRecord).notes = OptField.absent ∨
      ∃ v, (app_set_notes false "m" genRecord).notes = OptField.val v) ∧
    ((app_set_notes true "m" genRecord).notes = OptField.absent ∨
      ∃ v, (app_set_notes true "m" genRecord).notes = OptField.val v) :=
  ⟨(C5_amended_optional_fields sd0 ad0 0 0 false false).2.2.2.2.2 false "m"
      ds0 0 0 genCatalog [genRound] genRecord rfl,
    (C5_amended_optional_fields sd0 ad0 0 0 false false).2.2.2.2.2 true "m"
      ds0 0 0 genCatalog [genRound] genRecord rfl⟩

/-- C6 counterexample: at `batteryMissRate = 1/5` the probability that a
record carries a battery value is NOT `1 - 1/5`: the generator's own fixed
5% gate composes with the app's gate, giving `19/20 · 4/5 = 0.76`, not
`0.8`. -/
theorem C6_counterexample :
    batteryPresentProb (1 / 5) ≠ ENNReal.ofReal (1 - 1 / 5) := by
  rw [batteryPresentProb_eq (1 / 5) (by norm_num)]
  intro h
  rw [ENNReal.ofReal_eq_ofReal_iff (by norm_num) (by norm_num)] at h
  norm_num at h

/-- C6 (amended): the battery value survives iff the generator's fixed 5%
gate keeps it and the app's configured gate does not null it; with both
gate draws independent uniforms on `[0, 1)`, the probability of a present
battery is `19/20 · (1 - missRate)` (so the absent fraction at rate 0.2 is
0.24, not 0.2). -/
theorem C6_amended_battery_presence :
    (∀ (sd : SensorDraws) (ad : AppDraws) (bRate pRate : ℚ) (fg fa : Bool),
      (app_adjust_data bRate pRate fg fa ad (generate_device_data sd)).battery =
          OptField.val sd.batteryVal ↔
        (sd.batteryGate > 1 / 20 ∧ ¬ (ad.batteryU < bRate))) ∧
    ∀ r : ℝ, 0 ≤ r → r ≤ 1 →
      batteryPresentProb r = ENNReal.ofReal (19 / 20 * (1 - r)) :=
  ⟨pipeline_battery_val, fun r h0 _ => batteryPresentProb_eq r h0⟩

/-- C6 witness: the probability formula instantiated at the rate 1/5. -/
theorem C6_amended_battery_presence_witness :
    (0 : ℝ) ≤ 1 / 5 ∧ (1 / 5 : ℝ) ≤ 1 ∧
    batteryPresentProb (1 / 5) = ENNReal.ofReal (19 / 20 * (1 - 1 / 5)) :=
  ⟨by norm_num, by norm_num,
    C6_amended_battery_presence.2 (1 / 5) (by norm_num) (by norm_num)⟩

/-- C7: every row returned by the proximity query is within the radius
(its reported `distance_km` never exceeds `radius_km`); every stored row
with a geometry within the radius is included with its distance; and the
returned sequence is non-decreasing in `distance_km`. -/
theorem C7_query_nearby_properties (dist : ℚ × ℚ → ℚ × ℚ → ℚ)
    (table : List StoredRow) (lon lat radius_km : ℚ) :
    (∀ out ∈ query_nearby_devices_with_attributes dist table lon lat radius_km,
      out.distance_km ≤ radius_km) ∧
    (∀ row ∈ table, ∀ g, row.geom = some g →
      dist g (lon, lat) ≤ radius_km * 1000 →
      ∃ out ∈ query_nearby_devices_with_attributes dist table lon lat radius_km,
        out.device_id = row.device_id ∧
        out.distance_km = dist g (lon, lat) / 1000) ∧
    (query_nearby_devices_with_attributes dist table lon lat radius_km).Pairwise
      (fun a b => a.distance_km ≤ b.distance_km) :=
  ⟨fun _ h => query_nearby_within h,
    fun _ hrow _ hg hd => query_nearby_complete hrow hg hd,
    query_nearby_sorted dist table lon lat radius_km⟩

/-- C7 witness: a concrete table and distance function for which the query
returns the in-radius row with its distance. -/
theorem C7_query_nearby_properties_witness :
    ∃ out ∈ query_nearby_devices_with_attributes witDist witTable 0 0 1,
      out.device_id = witNearRow.device_id ∧
      out.distance_km = witDist (1, 1) (0, 0) / 1000 :=
  (C7_query_nearby_properties witDist witTable 0 0 1).2.1 witNearRow
    (by simp [witTable]) (1, 1) rfl (by norm_num [witDist])

/-- C8: the geometry backfill is idempotent — a second run leaves the
table and the reported affected-row count unchanged — and for every row
with valid lon/lat it derives exactly the point `(lon, lat)` from the
location document. -/
theorem C8_backfill_idempotent (table : List DeviceRow) :
    update_geometry (update_geometry table).1 = update_geometry table ∧
    ∀ row ∈ table, ∀ (l : LocDoc) (lo la : ℚ), row.location = some l →
      l.lon = some lo → l.lat = some la →
      setGeom row = { row with geom := some (lo, la) } := by
  constructor
  · rw [update_geometry, update_geometry]
    rw [Prod.mk.injEq]
    constructor
    · rw [List.map_map]
      exact List.map_congr_left (fun row _ => setGeom_idem row)
    · rw [List.countP_map]
      exact List.countP_congr (fun row _ => by
        show (hasCoords ∘ setGeom) row = true ↔ hasCoords row = true
        rw [Function.comp_apply, hasCoords_setGeom])
  · intro row _ l lo la h hlo hla
    exact setGeom_coords h hlo hla

/-- C8 witness: the backfill applied to a concrete row with valid lon/lat
derives its point geometry. -/
theorem C8_backfill_idempotent_witness :
    setGeom witGeoRow = { witGeoRow with geom := some (116, 40) } :=
  (C8_backfill_idempotent [witGeoRow]).2 witGeoRow (by simp) witGeoLoc 116 40
    rfl rfl rfl

/-- C9 counterexample: the draws `random_days = delta.days = 730` and
`random_seconds = 86400` are both legal (`randint` bounds are inclusive)
and produce the instant 2026-01-01 00:00:00 — outside the two-year window
that ends with 2025. -/
theorem C9_counterexample :
    random_timestamp_offset deltaDays 86400 =
        (toOrdinal 2026 1 1 - toOrdinal 2024 1 1) * 86400 ∧
    inTwoYearWindow (random_timestamp_offset deltaDays 86400) = false ∧
    random_timestamp deltaDays 86400 = "2026-01-01 00:00:00" := by decide

/-- C9 (amended): every timestamp the synthesizer can produce is a whole
second in the closed range from 2024-01-01 00:00:00 to 2026-01-01 00:00:00
inclusive — the two-year window extended by one boundary second, which the
inclusive `randint` bounds make attainable. -/
theorem C9_amended_timestamp_range (d s : Nat) (hd : d ≤ deltaDays)
    (hs : s ≤ 86400) :
    random_timestamp_offset d s ≤
      (toOrdinal 2026 1 1 - toOrdinal 2024 1 1) * 86400 := by
  have h730 : deltaDays = 730 := deltaDays_eq
  have h731 : toOrdinal 2026 1 1 - toOrdinal 2024 1 1 = 731 := by decide
  rw [random_timestamp_offset, h731]
  rw [h730] at hd
  have hmul := Nat.mul_le_mul_right 86400 hd
  omega

/-- C9 witness: the range bound instantiated at the draws (0, 0). -/
theorem C9_amended_timestamp_range_witness :
    0 ≤ deltaDays ∧ (0 : Nat) ≤ 86400 ∧
    random_timestamp_offset 0 0 ≤
      (toOrdinal 2026 1 1 - toOrdinal 2024 1 1) * 86400 :=
  ⟨Nat.zero_le _, Nat.zero_le _,
    C9_amended_timestamp_range 0 0 (Nat.zero_le _) (Nat.zero_le _)⟩

/-- C10: every generated `device_id` is `sensor_` followed by exactly five
decimal digits; every generated timestamp string is non-empty; hence the
Batch Ingestor's validation-skip branch is unreachable on generator-produced
records and ingesting any sequence of them without store failure yields
`skipCount = 0` and `successCount` equal to the sequence length. -/
theorem C10_generated_records_never_skipped :
    (∀ ds : Fin 5 → Fin 10, ∃ suffix : String,
      random_device_id ds = "sensor_" ++ suffix ∧ suffix.length = 5 ∧
      ∀ c ∈ suffix.data, c.isDigit = true) ∧
    (∀ d s : Nat, random_timestamp d s ≠ "") ∧
    ∀ recs : List DeviceRecord, (∀ r ∈ recs, IsGenerated r) →
      bulk_insert_records noFailure (recs.map toIngest) = (recs.length, 0) :=
  ⟨random_device_id_shape, random_timestamp_ne_empty, bulk_insert_generated⟩

/-- C10 witness: a concrete generator-produced record ingests with one
success and zero skips. -/
theorem C10_generated_records_never_skipped_witness :
    bulk_insert_records noFailure ([genRecord].map toIngest) = (1, 0) :=
  C10_generated_records_never_skipped.2.2 [genRecord]
    (by
      intro r hr
      rw [List.mem_singleton] at hr
      subst hr
      exact ⟨ds0, 0, 0, genCatalog, [genRound], sd0, rfl⟩)

end IotPlatform
